import Mathlib

/-
  Verification development for the smart-thermostat controller node.

  Shallow embedding of controller-node/src/thermostat.cpp and
  controller-node/src/ir_controller.cpp.

  Modelling conventions:
  - C++ float fields (temperatures, hysteresis) are embedded as exact
    rationals.
  - millis() timestamps are Nat; `a - b` on unsigned longs is Nat
    truncated subtraction, which agrees with the 32-bit unsigned
    subtraction whenever a is at or after b (the monotone-clock regime;
    wraparound after 49.7 days is outside the modelled regime).
  - Each operation is a pure function from the object state to the new
    state paired with the ordered list of events it emits: the abstract
    commands handed to the IR sender plus hold activations.  The IR
    sender's own raw-frame rate limiting (canSend / lastSendTime) sits
    below this interface: a command handed to the sender counts as
    issued whether or not the raw frames were ultimately transmitted,
    which is also how the code treats it (state updates proceed
    regardless).
  - delay() calls inside one operation are abstracted: an operation
    happens at a single instant `now`.
  - int8_t increment of the trend counter is modelled with explicit
    wrap at 127.
  - config.h is not part of the provided sources, so every compile-time
    constant it defines is a field of an explicit Config parameter; the
    theorems quantify over all configurations wherever possible.
-/

/-- Abstract commands handed to the IR sender, plus hold activation
events, in program order. -/
inductive Ev
  | powerOn
  | powerOff
  | heatOn
  | heatOff
  | tempUp
  | tempDown
  | light
  | timer
  | holdOn
deriving DecidableEq, Repr

/-- enum class ThermostatMode from thermostat.h. -/
inductive ThermostatMode
  | OFF
  | HEAT
deriving DecidableEq, Repr

/-- enum class ThermostatState from thermostat.h. -/
inductive ThermostatState
  | IDLE
  | HEATING
  | SATISFIED
  | HOLD
  | COOLDOWN
deriving DecidableEq, Repr

/-- State-tracking part of IRController (ir_controller.h): believed
light level, timer state and fireplace temperature. -/
structure IRController where
  lightLevel : Nat
  timerState : Nat
  currentTemp : Int
deriving DecidableEq, Repr

/-- IRController constructor: light off, timer off, temperature
believed to start at 70 °F. -/
def IRController.init : IRController :=
  { lightLevel := 0, timerState := 0, currentTemp := 70 }

/-- C++ `x / 2` on int: division truncating toward zero. -/
def cppDiv2 (x : Int) : Int :=
  if 0 ≤ x then x / 2 else -((-x) / 2)

/-- The rounding and clamping performed at the top of
IRController::sendTemp and IRController::setCurrentTemp:
`temp = ((temp + 1) / 2) * 2` then clamp to [60, 80]. -/
def IRController.roundClampTemp (temp : Int) : Int :=
  let r := cppDiv2 (temp + 1) * 2
  if r < 60 then 60 else if r > 80 then 80 else r

/-- Modelled from the spec (claim wording): round to an even integer,
odd values rounding up, then clamp to [60, 80].  Used only to compare
the code's rounding against the specified one. -/
def specEvenClamp (temp : Int) : Int :=
  let r := if temp % 2 = 0 then temp else temp + 1
  if r < 60 then 60 else if r > 80 then 80 else r

/-- The body of the while loop in IRController::sendTemp: step the
believed temperature by ±2 toward tgt, emitting one UP or DOWN command
per step.  The C++ loop has no fuel; the model supplies an explicit
step budget and reports in the Bool whether the loop exited through
its `currentTemp != temp` test (true) or the budget ran out while the
loop would have kept running (false). -/
def sendTempGo (tgt : Int) : Nat → Int → Int × (List Ev × Bool)
  | 0, cur => (cur, ([], cur == tgt))
  | fuel + 1, cur =>
    if cur == tgt then (cur, ([], true))
    else if cur < tgt then
      let r := sendTempGo tgt fuel (cur + 2)
      (r.1, (Ev.tempUp :: r.2.1, r.2.2))
    else
      let r := sendTempGo tgt fuel (cur - 2)
      (r.1, (Ev.tempDown :: r.2.1, r.2.2))

/-- IRController::sendTemp: round and clamp the request, then send UP
or DOWN codes until the believed temperature reaches it. -/
def IRController.sendTemp (ir : IRController) (temp : Int) :
    IRController × (List Ev × Bool) :=
  let tgt := IRController.roundClampTemp temp
  let r := sendTempGo tgt (tgt - ir.currentTemp).natAbs ir.currentTemp
  ({ ir with currentTemp := r.1 }, (r.2.1, r.2.2))

/-- IRController::setCurrentTemp: state sync without sending. -/
def IRController.setCurrentTemp (ir : IRController) (temp : Int) : IRController :=
  { ir with currentTemp := IRController.roundClampTemp temp }

/-- IRController::sendHeatUp: step up by 2 unless already at 80. -/
def IRController.sendHeatUp (ir : IRController) : IRController × List Ev :=
  if ir.currentTemp ≥ 80 then (ir, [])
  else ({ ir with currentTemp := ir.currentTemp + 2 }, [Ev.tempUp])

/-- IRController::sendHeatDown: step down by 2 unless already at 60. -/
def IRController.sendHeatDown (ir : IRController) : IRController × List Ev :=
  if ir.currentTemp ≤ 60 then (ir, [])
  else ({ ir with currentTemp := ir.currentTemp - 2 }, [Ev.tempDown])

/-- IRController::setLightLevel: accepted only when level ≤ 4. -/
def IRController.setLightLevel (ir : IRController) (level : Nat) : IRController :=
  if level ≤ 4 then { ir with lightLevel := level } else ir

/-- Light cycle 0 → 4 → 3 → 2 → 1 → 0 from IRController::sendLightToggle. -/
def lightNext : Nat → Nat
  | 0 => 4
  | 4 => 3
  | 3 => 2
  | 2 => 1
  | 1 => 0
  | n => n

/-- IRController::sendLightToggle: emit the state-dependent light code
and advance the believed light level. -/
def IRController.sendLightToggle (ir : IRController) : IRController × List Ev :=
  ({ ir with lightLevel := lightNext ir.lightLevel }, [Ev.light])

/-- IRController::sendTimerToggle: emit the state-dependent timer code
and advance the believed timer state, cycling 0..10. -/
def IRController.sendTimerToggle (ir : IRController) : IRController × List Ev :=
  ({ ir with timerState := (ir.timerState + 1) % 11 }, [Ev.timer])

/-- Compile-time constants from config.h (the header is not part of
the provided sources; all constants are explicit parameters). -/
structure Config where
  MIN_CYCLE_TIME : Nat
  SENSOR_STALE_TIMEOUT : Nat
  MAX_RUNTIME_MS : Nat
  COOLDOWN_DURATION_MS : Nat
  HOLD_DURATION_MS : Nat
  TREND_SAMPLE_INTERVAL : Nat
  TREND_RISING_THRESHOLD : ℚ
  TREND_FALLING_THRESHOLD : ℚ
  TREND_SAMPLES_REQUIRED : Int
  SETTINGS_SAVE_DEBOUNCE_MS : Nat
  DEFAULT_TARGET_TEMP : ℚ
  DEFAULT_HYSTERESIS : ℚ
deriving DecidableEq, Repr

/-- The Thermostat object state (thermostat.h private fields). -/
structure Thermostat where
  targetTemp : ℚ
  hysteresis : ℚ
  mode : ThermostatMode
  state : ThermostatState
  currentTemp : ℚ
  currentHumidity : ℚ
  fireplaceOn : Bool
  fireplaceOffset : Int
  lastSensorUpdate : Nat
  lastStateChange : Nat
  minCycleTime : Nat
  sensorStaleTimeout : Nat
  holdActive : Bool
  holdStartTime : Nat
  holdDuration : Nat
  heatingStartTime : Nat
  cooldownStartTime : Nat
  inCooldown : Bool
  lastSettingsChange : Nat
  settingsPendingSave : Bool
  previousTemp : ℚ
  lastTrendSample : Nat
  trendDirection : Int
  consecutiveTrend : Int
  ir : IRController
deriving DecidableEq, Repr

/-- Thermostat constructor. -/
def Thermostat.init (cfg : Config) : Thermostat where
  targetTemp := cfg.DEFAULT_TARGET_TEMP
  hysteresis := cfg.DEFAULT_HYSTERESIS
  mode := ThermostatMode.OFF
  state := ThermostatState.IDLE
  currentTemp := 0
  currentHumidity := 0
  fireplaceOn := false
  fireplaceOffset := 4
  lastSensorUpdate := 0
  lastStateChange := 0
  minCycleTime := cfg.MIN_CYCLE_TIME
  sensorStaleTimeout := cfg.SENSOR_STALE_TIMEOUT
  holdActive := false
  holdStartTime := 0
  holdDuration := cfg.HOLD_DURATION_MS
  heatingStartTime := 0
  cooldownStartTime := 0
  inCooldown := false
  lastSettingsChange := 0
  settingsPendingSave := false
  previousTemp := 0
  lastTrendSample := 0
  trendDirection := 0
  consecutiveTrend := 0
  ir := IRController.init

/-- Thermostat::markSettingsChanged. -/
def Thermostat.markSettingsChanged (now : Nat) (t : Thermostat) : Thermostat :=
  { t with lastSettingsChange := now, settingsPendingSave := true }

/-- Thermostat::setTargetTemp: clamp to [60, 84], store if changed. -/
def Thermostat.setTargetTemp (now : Nat) (temp : ℚ) (t : Thermostat) : Thermostat :=
  let temp := if temp < 60 then 60 else temp
  let temp := if temp > 84 then 84 else temp
  if t.targetTemp ≠ temp then
    Thermostat.markSettingsChanged now { t with targetTemp := temp }
  else t

/-- Thermostat::setHysteresis: clamp to [0.5, 5.0], store if changed. -/
def Thermostat.setHysteresis (now : Nat) (hyst : ℚ) (t : Thermostat) : Thermostat :=
  let hyst := if hyst < 1/2 then 1/2 else hyst
  let hyst := if hyst > 5 then 5 else hyst
  if t.hysteresis ≠ hyst then
    Thermostat.markSettingsChanged now { t with hysteresis := hyst }
  else t

/-- Thermostat::updateSensorData. -/
def Thermostat.updateSensorData (now : Nat) (temperature humidity : ℚ)
    (t : Thermostat) : Thermostat :=
  { t with currentTemp := temperature, currentHumidity := humidity,
           lastSensorUpdate := now }

/-- Thermostat::isSensorDataValid. -/
def Thermostat.isSensorDataValid (now : Nat) (t : Thermostat) : Bool :=
  if t.lastSensorUpdate == 0 then false
  else decide (now - t.lastSensorUpdate < t.sensorStaleTimeout)

/-- Thermostat::canChangeState. -/
def Thermostat.canChangeState (now : Nat) (t : Thermostat) : Bool :=
  if t.lastStateChange == 0 then true
  else decide (now - t.lastStateChange ≥ t.minCycleTime)

/-- Thermostat::turnFireplaceOn: the multi-step on sequence — power
on, heat on, set temperature to target + offset, set the light-level
belief to 4 and toggle the light four times — then record believed-on,
the heating start, the state-change time, and state HEATING.  The
float-to-int conversion of targetTemp + fireplaceOffset truncates
toward zero. -/
def Thermostat.turnFireplaceOn (now : Nat) (t : Thermostat) : Thermostat × List Ev :=
  if t.fireplaceOn then (t, [])
  else
    let desired : Int :=
      let q := t.targetTemp + (t.fireplaceOffset : ℚ)
      if 0 ≤ q then ⌊q⌋ else -⌊-q⌋
    let s := t.ir.sendTemp desired
    let ir1 := (s.1.setLightLevel 4)
    let l1 := ir1.sendLightToggle
    let l2 := l1.1.sendLightToggle
    let l3 := l2.1.sendLightToggle
    let l4 := l3.1.sendLightToggle
    ({ t with ir := l4.1, fireplaceOn := true, heatingStartTime := now,
              lastStateChange := now, state := ThermostatState.HEATING },
     Ev.powerOn :: Ev.heatOn :: (s.2.1 ++ [Ev.light, Ev.light, Ev.light, Ev.light]))

/-- Thermostat::turnFireplaceOff: single power-off command; note that
heatingStartTime is left untouched here. -/
def Thermostat.turnFireplaceOff (now : Nat) (t : Thermostat) : Thermostat × List Ev :=
  if t.fireplaceOn then
    ({ t with fireplaceOn := false, lastStateChange := now,
              state := ThermostatState.SATISFIED }, [Ev.powerOff])
  else (t, [])

/-- Thermostat::setMode: on a real change, persist, turn the fireplace
off when switching to OFF, and when OFF force IDLE and clear hold. -/
def Thermostat.setMode (now : Nat) (newMode : ThermostatMode)
    (t : Thermostat) : Thermostat × List Ev :=
  if t.mode = newMode then (t, [])
  else
    let t := Thermostat.markSettingsChanged now { t with mode := newMode }
    let r :=
      if newMode = ThermostatMode.OFF ∧ t.fireplaceOn then
        Thermostat.turnFireplaceOff now t
      else (t, [])
    if newMode = ThermostatMode.OFF then
      ({ r.1 with state := ThermostatState.IDLE, holdActive := false }, r.2)
    else r

/-- Thermostat::enterHold: durationMs = 0 means the default constant. -/
def Thermostat.enterHold (cfg : Config) (now : Nat) (durationMs : Nat)
    (t : Thermostat) : Thermostat × List Ev :=
  ({ t with holdActive := true, holdStartTime := now,
            holdDuration := if durationMs > 0 then durationMs else cfg.HOLD_DURATION_MS },
   [Ev.holdOn])

/-- Thermostat::exitHold. -/
def Thermostat.exitHold (t : Thermostat) : Thermostat :=
  if t.holdActive then { t with holdActive := false } else t

/-- Thermostat::resetSafety. -/
def Thermostat.resetSafety (t : Thermostat) : Thermostat :=
  { t with inCooldown := false, cooldownStartTime := 0, heatingStartTime := 0 }

/-- Thermostat::evaluateState: the per-tick state machine. -/
def Thermostat.evaluateState (now : Nat) (t : Thermostat) : Thermostat × List Ev :=
  if t.mode = ThermostatMode.OFF then
    if t.fireplaceOn ∧ t.canChangeState now then
      let r := t.turnFireplaceOff now
      ({ r.1 with state := ThermostatState.IDLE }, r.2)
    else ({ t with state := ThermostatState.IDLE }, [])
  else if t.inCooldown then
    ({ t with state := ThermostatState.COOLDOWN }, [])
  else if t.holdActive then
    ({ t with state := ThermostatState.HOLD }, [])
  else if ¬ t.isSensorDataValid now then
    if t.fireplaceOn ∧ t.canChangeState now then
      let r := t.turnFireplaceOff now
      ({ r.1 with state := ThermostatState.IDLE }, r.2)
    else ({ t with state := ThermostatState.IDLE }, [])
  else
    let lowerBound := t.targetTemp - t.hysteresis
    let upperBound := t.targetTemp + t.hysteresis
    if ¬ t.fireplaceOn then
      if t.currentTemp < lowerBound then
        if t.canChangeState now then t.turnFireplaceOn now else (t, [])
      else ({ t with state := ThermostatState.SATISFIED }, [])
    else
      if t.currentTemp > upperBound then
        if t.canChangeState now then t.turnFireplaceOff now else (t, [])
      else ({ t with state := ThermostatState.HEATING }, [])

/-- int8_t increment with wrap at 127 (consecutiveTrend is int8_t). -/
def i8inc (n : Int) : Int :=
  if n = 127 then -128 else n + 1

/-- Trend classification from thermostat.cpp lines 246-251: Rising
(+1) above the rising threshold, Falling (-1) below the falling
threshold, Stable (0) in between. -/
def trendClassify (cfg : Config) (delta : ℚ) : Int :=
  if delta > cfg.TREND_RISING_THRESHOLD then 1
  else if delta < cfg.TREND_FALLING_THRESHOLD then -1
  else 0

/-- Thermostat::detectExternalRemote: trend-based inference of
out-of-band remote usage. -/
def Thermostat.detectExternalRemote (cfg : Config) (now : Nat)
    (t : Thermostat) : Thermostat × List Ev :=
  if ¬ t.isSensorDataValid now then (t, [])
  else if now - t.lastTrendSample < cfg.TREND_SAMPLE_INTERVAL then (t, [])
  else
    let t := { t with lastTrendSample := now }
    if t.previousTemp = 0 then ({ t with previousTemp := t.currentTemp }, [])
    else
      let delta := t.currentTemp - t.previousTemp
      let t := { t with previousTemp := t.currentTemp }
      let newDirection : Int := trendClassify cfg delta
      let t :=
        if newDirection = t.trendDirection ∧ newDirection ≠ 0 then
          { t with consecutiveTrend := i8inc t.consecutiveTrend }
        else
          { t with consecutiveTrend := if newDirection ≠ 0 then 1 else 0,
                   trendDirection := newDirection }
      if t.consecutiveTrend ≥ cfg.TREND_SAMPLES_REQUIRED then
        if t.trendDirection = 1 ∧ ¬ t.fireplaceOn then
          Thermostat.enterHold cfg now 0
            { t with fireplaceOn := true, heatingStartTime := now,
                     consecutiveTrend := 0 }
        else if t.trendDirection = -1 ∧ t.fireplaceOn then
          Thermostat.enterHold cfg now 0
            { t with fireplaceOn := false, heatingStartTime := 0,
                     consecutiveTrend := 0 }
        else (t, [])
      else (t, [])

/-- Thermostat::checkRuntimeLimit: forced heat-off straight to the IR
sender once continuous runtime reaches the limit, then cooldown. -/
def Thermostat.checkRuntimeLimit (cfg : Config) (now : Nat)
    (t : Thermostat) : Thermostat × List Ev :=
  if ¬ t.fireplaceOn ∨ t.heatingStartTime = 0 then (t, [])
  else if now - t.heatingStartTime ≥ cfg.MAX_RUNTIME_MS then
    ({ t with inCooldown := true, cooldownStartTime := now,
              heatingStartTime := 0 }, [Ev.heatOff])
  else (t, [])

/-- Thermostat::checkCooldownComplete. -/
def Thermostat.checkCooldownComplete (cfg : Config) (now : Nat)
    (t : Thermostat) : Thermostat :=
  if ¬ t.inCooldown then t
  else if now - t.cooldownStartTime ≥ cfg.COOLDOWN_DURATION_MS then
    { t with inCooldown := false, cooldownStartTime := 0 }
  else t

/-- The hold-expiry check at the top of Thermostat::update. -/
def Thermostat.holdExpiryCheck (now : Nat) (t : Thermostat) : Thermostat :=
  if t.holdActive ∧ now - t.holdStartTime ≥ t.holdDuration then
    { t with holdActive := false }
  else t

/-- The debounced settings-save step at the bottom of
Thermostat::update (the flash write itself is out of scope; only the
pending flag is modelled). -/
def Thermostat.settingsSaveCheck (cfg : Config) (now : Nat) (t : Thermostat) : Thermostat :=
  if t.settingsPendingSave ∧ now - t.lastSettingsChange ≥ cfg.SETTINGS_SAVE_DEBOUNCE_MS then
    { t with settingsPendingSave := false }
  else t

/-- Thermostat::update: the control tick — hold expiry, cooldown
expiry, runtime limit, external-remote detection, state machine,
debounced settings save. -/
def Thermostat.update (cfg : Config) (now : Nat) (t : Thermostat) :
    Thermostat × List Ev :=
  let t1 := Thermostat.holdExpiryCheck now t
  let t2 := Thermostat.checkCooldownComplete cfg now t1
  let r3 := Thermostat.checkRuntimeLimit cfg now t2
  let r4 := Thermostat.detectExternalRemote cfg now r3.1
  let r5 := Thermostat.evaluateState now r4.1
  let t6 := Thermostat.settingsSaveCheck cfg now r5.1
  (t6, r3.2 ++ (r4.2 ++ r5.2))

/-- Thermostat::manualOn: immediate power-on, believed-on bookkeeping,
then hold. -/
def Thermostat.manualOn (cfg : Config) (now : Nat) (t : Thermostat) :
    Thermostat × List Ev :=
  let r := Thermostat.enterHold cfg now 0
    { t with fireplaceOn := true, heatingStartTime := now, lastStateChange := now }
  (r.1, Ev.powerOn :: r.2)

/-- Thermostat::manualOff: immediate power-off, bookkeeping, hold. -/
def Thermostat.manualOff (cfg : Config) (now : Nat) (t : Thermostat) :
    Thermostat × List Ev :=
  let r := Thermostat.enterHold cfg now 0
    { t with fireplaceOn := false, heatingStartTime := 0, lastStateChange := now }
  (r.1, Ev.powerOff :: r.2)

/-- Thermostat::manualHeatOn: heat-on command and hold only. -/
def Thermostat.manualHeatOn (cfg : Config) (now : Nat) (t : Thermostat) :
    Thermostat × List Ev :=
  let r := Thermostat.enterHold cfg now 0 t
  (r.1, Ev.heatOn :: r.2)

/-- Thermostat::manualHeatOff: heat-off command and hold only. -/
def Thermostat.manualHeatOff (cfg : Config) (now : Nat) (t : Thermostat) :
    Thermostat × List Ev :=
  let r := Thermostat.enterHold cfg now 0 t
  (r.1, Ev.heatOff :: r.2)

/-- Thermostat::manualHeatUp: pass through to the sender, no hold. -/
def Thermostat.manualHeatUp (t : Thermostat) : Thermostat × List Ev :=
  let r := t.ir.sendHeatUp
  ({ t with ir := r.1 }, r.2)

/-- Thermostat::manualHeatDown: pass through to the sender, no hold. -/
def Thermostat.manualHeatDown (t : Thermostat) : Thermostat × List Ev :=
  let r := t.ir.sendHeatDown
  ({ t with ir := r.1 }, r.2)

/-- Thermostat::manualLightToggle: pass through, no hold. -/
def Thermostat.manualLightToggle (t : Thermostat) : Thermostat × List Ev :=
  let r := t.ir.sendLightToggle
  ({ t with ir := r.1 }, r.2)

/-- Thermostat::manualTimerToggle: pass through, no hold. -/
def Thermostat.manualTimerToggle (t : Thermostat) : Thermostat × List Ev :=
  let r := t.ir.sendTimerToggle
  ({ t with ir := r.1 }, r.2)

/-- One sensor sample delivered to the controller and immediately
followed by a detector pass at the same instant: the claim-C5 notion
of feeding the detector one valid sample. -/
def Thermostat.feedSample (cfg : Config) (p : Nat × ℚ) (t : Thermostat) :
    Thermostat × List Ev :=
  let t1 := Thermostat.updateSensorData p.1 p.2 50 t
  Thermostat.detectExternalRemote cfg p.1 t1

/-- Feed a whole sequence of timed samples, concatenating the events. -/
def Thermostat.feedTrace (cfg : Config) : List (Nat × ℚ) → Thermostat →
    Thermostat × List Ev
  | [], t => (t, [])
  | p :: ps, t =>
    let r := Thermostat.feedSample cfg p t
    let r2 := Thermostat.feedTrace cfg ps r.1
    (r2.1, r.2 ++ r2.2)

/-- A sample sequence that is spaced at least the trend sampling
interval apart, whose successive deltas all exceed the rising
threshold, and whose readings avoid the float-zero baseline sentinel;
anchored at the previous sample time and temperature. -/
def RisingChain (cfg : Config) : Nat → ℚ → List (Nat × ℚ) → Prop
  | _, _, [] => True
  | tm0, temp0, p :: rest =>
    tm0 + cfg.TREND_SAMPLE_INTERVAL ≤ p.1 ∧
    temp0 + cfg.TREND_RISING_THRESHOLD < p.2 ∧
    p.2 ≠ 0 ∧
    RisingChain cfg p.1 p.2 rest

/-- Modelled from the spec: config.h is absent from the provided
sources, so its constants are unknown; this instance uses the
README-documented defaults (4 h maximum runtime, 30 min cooldown,
5 min sensor staleness) and representative values for the rest.  The
counterexamples below that use it refute universally quantified claims
and do not hinge on the particular values chosen. -/
def cfgD : Config where
  MIN_CYCLE_TIME := 60000
  SENSOR_STALE_TIMEOUT := 300000
  MAX_RUNTIME_MS := 14400000
  COOLDOWN_DURATION_MS := 1800000
  HOLD_DURATION_MS := 1800000
  TREND_SAMPLE_INTERVAL := 60000
  TREND_RISING_THRESHOLD := 1/2
  TREND_FALLING_THRESHOLD := -(1/2)
  TREND_SAMPLES_REQUIRED := 3
  SETTINGS_SAVE_DEBOUNCE_MS := 5000
  DEFAULT_TARGET_TEMP := 70
  DEFAULT_HYSTERESIS := 2

/-- Concrete scenario state for the heat-on witness: target 70,
hysteresis 2, mode Heat, a fresh sensor reading of 67 °F. -/
def tOnW : Thermostat :=
  { Thermostat.init cfgD with mode := ThermostatMode.HEAT, currentTemp := 67,
                              lastSensorUpdate := 399000 }

/-- Concrete baseline state for the detector witness: a baseline
sample of 60 °F established at time 60000. -/
def tDetW : Thermostat :=
  { Thermostat.init cfgD with previousTemp := 60, currentTemp := 60,
                              lastSensorUpdate := 60000, lastTrendSample := 60000 }

/-- Rising sample sequence for the detector witness. -/
def samplesW : List (Nat × ℚ) := [(120000, 61), (180000, 62), (240000, 63)]

/-- The state reached by a manual power-on at t = 1000 from boot. -/
def tManualOn : Thermostat := (Thermostat.manualOn cfgD 1000 (Thermostat.init cfgD)).1

/-- The state reached by a manual power-off at t = 1000 from boot. -/
def tManualOff : Thermostat := (Thermostat.manualOff cfgD 1000 (Thermostat.init cfgD)).1


/-- The code's round-and-clamp agrees with the specified round-to-even
(odd up) and clamp on every int input: the two roundings differ only
below 60, where the clamp erases the difference. -/
lemma roundClampTemp_eq_spec (temp : Int) :
    IRController.roundClampTemp temp = specEvenClamp temp := by
  unfold IRController.roundClampTemp specEvenClamp cppDiv2
  dsimp only
  split_ifs <;> omega

/-- The round-and-clamp always lands on an even value in [60, 80]. -/
lemma roundClampTemp_inv (temp : Int) :
    IRController.roundClampTemp temp % 2 = 0 ∧
    60 ≤ IRController.roundClampTemp temp ∧
    IRController.roundClampTemp temp ≤ 80 := by
  unfold IRController.roundClampTemp cppDiv2
  dsimp only
  split_ifs <;> omega

/-- When the cursor and the target are both even and the budget covers
their distance, the sendTemp loop reaches the target and exits through
its own test. -/
lemma sendTempGo_complete (tgt : Int) (h2 : tgt % 2 = 0) :
    ∀ fuel : Nat, ∀ cur : Int, cur % 2 = 0 → (tgt - cur).natAbs ≤ fuel →
      (sendTempGo tgt fuel cur).1 = tgt ∧ (sendTempGo tgt fuel cur).2.2 = true := by
  intro fuel
  induction fuel with
  | zero =>
    intro cur hc hle
    have he : cur = tgt := by omega
    subst he
    simp [sendTempGo]
  | succ n ih =>
    intro cur hc hle
    by_cases he : cur = tgt
    · subst he
      simp [sendTempGo]
    · by_cases hlt : cur < tgt
      · have h := ih (cur + 2) (by omega) (by omega)
        simp only [sendTempGo, beq_iff_eq, if_neg he, if_pos hlt]
        exact h
      · have h := ih (cur - 2) (by omega) (by omega)
        simp only [sendTempGo, beq_iff_eq, if_neg he, if_neg hlt]
        exact h

/-- Every command the sendTemp loop emits is a temperature step. -/
lemma sendTempGo_mem (tgt : Int) :
    ∀ fuel : Nat, ∀ cur : Int, ∀ e ∈ (sendTempGo tgt fuel cur).2.1,
      e = Ev.tempUp ∨ e = Ev.tempDown := by
  intro fuel
  induction fuel with
  | zero => intro cur e he; simp [sendTempGo] at he
  | succ n ih =>
    intro cur e he
    by_cases heq : cur = tgt
    · subst heq; simp [sendTempGo] at he
    · by_cases hlt : cur < tgt
      · simp only [sendTempGo, beq_iff_eq, if_neg heq, if_pos hlt, List.mem_cons] at he
        rcases he with h | h
        · exact Or.inl h
        · exact ih (cur + 2) e h
      · simp only [sendTempGo, beq_iff_eq, if_neg heq, if_neg hlt, List.mem_cons] at he
        rcases he with h | h
        · exact Or.inr h
        · exact ih (cur - 2) e h

/-- C10: for every integer input, provided the believed fireplace
temperature is an even integer in [60, 80] — an invariant established
by the constructor and maintained by setCurrentTemp, sendHeatUp and
sendHeatDown — sendTemp's while loop terminates (exits through its own
test within the modelled step budget), and the believed temperature it
leaves behind is the input rounded to an even integer (odd values up)
and clamped to [60, 80]; the invariant also holds afterwards. -/
theorem sendTemp_terminates_and_rounds (temp : Int) (ir : IRController)
    (hE : ir.currentTemp % 2 = 0) (hlo : 60 ≤ ir.currentTemp)
    (hhi : ir.currentTemp ≤ 80) :
    (ir.sendTemp temp).2.2 = true ∧
    (ir.sendTemp temp).1.currentTemp = specEvenClamp temp ∧
    ((ir.sendTemp temp).1.currentTemp % 2 = 0 ∧
      60 ≤ (ir.sendTemp temp).1.currentTemp ∧
      (ir.sendTemp temp).1.currentTemp ≤ 80) ∧
    (IRController.init.currentTemp % 2 = 0 ∧
      60 ≤ IRController.init.currentTemp ∧ IRController.init.currentTemp ≤ 80) ∧
    (∀ j : IRController, ∀ v : Int,
      (j.setCurrentTemp v).currentTemp % 2 = 0 ∧
      60 ≤ (j.setCurrentTemp v).currentTemp ∧ (j.setCurrentTemp v).currentTemp ≤ 80) ∧
    (∀ j : IRController, j.currentTemp % 2 = 0 → 60 ≤ j.currentTemp → j.currentTemp ≤ 80 →
      ((j.sendHeatUp.1.currentTemp % 2 = 0 ∧
        60 ≤ j.sendHeatUp.1.currentTemp ∧ j.sendHeatUp.1.currentTemp ≤ 80) ∧
       (j.sendHeatDown.1.currentTemp % 2 = 0 ∧
        60 ≤ j.sendHeatDown.1.currentTemp ∧ j.sendHeatDown.1.currentTemp ≤ 80))) := by
  have htgt := roundClampTemp_inv temp
  have hmain := sendTempGo_complete (IRController.roundClampTemp temp) htgt.1
    (IRController.roundClampTemp temp - ir.currentTemp).natAbs ir.currentTemp hE le_rfl
  refine ⟨?_, ?_, ?_, by constructor <;> simp [IRController.init], ?_, ?_⟩
  · show (sendTempGo _ _ _).2.2 = true
    exact hmain.2
  · show (sendTempGo _ _ _).1 = specEvenClamp temp
    rw [hmain.1, roundClampTemp_eq_spec]
  · show (sendTempGo _ _ _).1 % 2 = 0 ∧ 60 ≤ (sendTempGo _ _ _).1 ∧ (sendTempGo _ _ _).1 ≤ 80
    rw [hmain.1]
    exact htgt
  · intro j v
    have h := roundClampTemp_inv v
    simpa [IRController.setCurrentTemp] using h
  · intro j h1 h2 h3
    constructor
    · unfold IRController.sendHeatUp
      split_ifs <;> simp <;> omega
    · unfold IRController.sendHeatDown
      split_ifs <;> simp <;> omega

/-- Witness for the sendTemp theorem: from the constructor state
(70 °F believed) a request of 67 °F rounds to 68 and the loop stops
there. -/
theorem sendTemp_terminates_and_rounds_witness :
    (IRController.init.sendTemp 67).2.2 = true ∧
    (IRController.init.sendTemp 67).1.currentTemp = specEvenClamp 67 := by
  have h := sendTemp_terminates_and_rounds 67 IRController.init
    (by decide) (by decide) (by decide)
  exact ⟨h.1, h.2.1⟩

/-- C9: exitHold when hold is not active changes nothing (the whole
Engine state is returned unchanged), and exitHold is idempotent. -/
theorem exitHold_inactive_noop (t : Thermostat) (h : t.holdActive = false) :
    Thermostat.exitHold t = t ∧
    ∀ u : Thermostat, Thermostat.exitHold (Thermostat.exitHold u) = Thermostat.exitHold u := by
  constructor
  · unfold Thermostat.exitHold
    simp [h]
  · intro u
    by_cases hu : u.holdActive <;> simp [Thermostat.exitHold, hu]

/-- Witness: from the freshly constructed state (hold inactive),
exitHold returns the state unchanged. -/
theorem exitHold_inactive_noop_witness :
    Thermostat.exitHold (Thermostat.init cfgD) = Thermostat.init cfgD :=
  (exitHold_inactive_noop (Thermostat.init cfgD) rfl).1

/-- The stored target after setTargetTemp is always the clamped input. -/
lemma setTargetTemp_stores_clamped (now : Nat) (v : ℚ) (t : Thermostat) :
    (Thermostat.setTargetTemp now v t).targetTemp =
      if v < 60 then 60 else if v > 84 then 84 else v := by
  unfold Thermostat.setTargetTemp Thermostat.markSettingsChanged
  dsimp only
  split_ifs <;> simp_all <;> linarith

/-- C8 counterexample: setTargetTemp(200) on the freshly constructed
state (target 70) is not rejected-unchanged — the setter clamps and
stores 84. -/
theorem setTargetTemp_200_clamps_not_rejects :
    (Thermostat.init cfgD).targetTemp = 70 ∧
    (Thermostat.setTargetTemp 0 200 (Thermostat.init cfgD)).targetTemp = 84 := by
  constructor <;> decide

/-- C8 amended: a valid value such as 72 round-trips exactly; an
out-of-range value is clamped into [60, 84] at the setter (200 stores
84, below-range values store 60) rather than leaving the stored target
unchanged. -/
theorem setTargetTemp_roundtrip_and_clamp (now : Nat) (t : Thermostat) (v : ℚ) :
    (Thermostat.setTargetTemp now 72 t).targetTemp = 72 ∧
    (Thermostat.setTargetTemp now 200 t).targetTemp = 84 ∧
    (60 ≤ v → v ≤ 84 → (Thermostat.setTargetTemp now v t).targetTemp = v) ∧
    (v < 60 → (Thermostat.setTargetTemp now v t).targetTemp = 60) ∧
    (84 < v → (Thermostat.setTargetTemp now v t).targetTemp = 84) := by
  refine ⟨?_, ?_, ?_, ?_, ?_⟩
  · rw [setTargetTemp_stores_clamped]
    norm_num
  · rw [setTargetTemp_stores_clamped]
    norm_num
  · intro h1 h2
    rw [setTargetTemp_stores_clamped, if_neg (by linarith), if_neg (by linarith)]
  · intro h
    rw [setTargetTemp_stores_clamped, if_pos h]
  · intro h
    rw [setTargetTemp_stores_clamped, if_neg (by linarith), if_pos h]

/-- Witness for the amended C8 statement at concrete inputs. -/
theorem setTargetTemp_roundtrip_and_clamp_witness :
    (Thermostat.setTargetTemp 0 72 (Thermostat.init cfgD)).targetTemp = 72 ∧
    (Thermostat.setTargetTemp 0 65 (Thermostat.init cfgD)).targetTemp = 65 := by
  have h := setTargetTemp_roundtrip_and_clamp 0 (Thermostat.init cfgD) 65
  exact ⟨h.1, h.2.2.1 (by norm_num) (by norm_num)⟩

/-- C7 counterexample: manualHeatOn from a reachable state (boot, then
manual power-off at t = 1000) issued at t = 5000 leaves
heatingStartTime and lastStateChange untouched — the claim asserts
every one of on/off/heat-on/heat-off updates heaterBelievedOn and the
runtime-safety bookkeeping, but heat-on only sends the command and
enters hold. -/
theorem manualHeatOn_skips_bookkeeping :
    tManualOff.lastStateChange = 1000 ∧
    (Thermostat.manualHeatOn cfgD 5000 tManualOff).1.lastStateChange = 1000 ∧
    (Thermostat.manualHeatOn cfgD 5000 tManualOff).1.heatingStartTime =
      tManualOff.heatingStartTime ∧
    (Thermostat.manualHeatOn cfgD 5000 tManualOff).1.fireplaceOn =
      tManualOff.fireplaceOn ∧
    (Thermostat.manualHeatOn cfgD 5000 tManualOff).2 = [Ev.heatOn, Ev.holdOn] := by
  refine ⟨?_, ?_, ?_, ?_, ?_⟩ <;> decide

/-- C7 amended: manual on/off immediately issue the IR command, update
heaterBelievedOn and the runtime-safety bookkeeping, and enter Hold;
manual heat-on/heat-off immediately issue the IR command and enter
Hold but leave heaterBelievedOn, heatingStartTime and lastStateChange
unchanged; heat-level-step, light-toggle and timer-toggle pass through
to the sender without touching Hold or ControlState. -/
theorem manual_commands_behavior (cfg : Config) (now : Nat) (t : Thermostat) :
    ((Thermostat.manualOn cfg now t).2 = [Ev.powerOn, Ev.holdOn] ∧
     (Thermostat.manualOn cfg now t).1.fireplaceOn = true ∧
     (Thermostat.manualOn cfg now t).1.heatingStartTime = now ∧
     (Thermostat.manualOn cfg now t).1.lastStateChange = now ∧
     (Thermostat.manualOn cfg now t).1.holdActive = true) ∧
    ((Thermostat.manualOff cfg now t).2 = [Ev.powerOff, Ev.holdOn] ∧
     (Thermostat.manualOff cfg now t).1.fireplaceOn = false ∧
     (Thermostat.manualOff cfg now t).1.heatingStartTime = 0 ∧
     (Thermostat.manualOff cfg now t).1.lastStateChange = now ∧
     (Thermostat.manualOff cfg now t).1.holdActive = true) ∧
    ((Thermostat.manualHeatOn cfg now t).2 = [Ev.heatOn, Ev.holdOn] ∧
     (Thermostat.manualHeatOn cfg now t).1.holdActive = true ∧
     (Thermostat.manualHeatOn cfg now t).1.fireplaceOn = t.fireplaceOn ∧
     (Thermostat.manualHeatOn cfg now t).1.heatingStartTime = t.heatingStartTime ∧
     (Thermostat.manualHeatOn cfg now t).1.lastStateChange = t.lastStateChange) ∧
    ((Thermostat.manualHeatOff cfg now t).2 = [Ev.heatOff, Ev.holdOn] ∧
     (Thermostat.manualHeatOff cfg now t).1.holdActive = true ∧
     (Thermostat.manualHeatOff cfg now t).1.fireplaceOn = t.fireplaceOn ∧
     (Thermostat.manualHeatOff cfg now t).1.heatingStartTime = t.heatingStartTime ∧
     (Thermostat.manualHeatOff cfg now t).1.lastStateChange = t.lastStateChange) ∧
    ((Thermostat.manualHeatUp t).2 =
        (if t.ir.currentTemp ≥ 80 then [] else [Ev.tempUp]) ∧
     (Thermostat.manualHeatUp t).1.holdActive = t.holdActive ∧
     (Thermostat.manualHeatUp t).1.state = t.state) ∧
    ((Thermostat.manualHeatDown t).2 =
        (if t.ir.currentTemp ≤ 60 then [] else [Ev.tempDown]) ∧
     (Thermostat.manualHeatDown t).1.holdActive = t.holdActive ∧
     (Thermostat.manualHeatDown t).1.state = t.state) ∧
    ((Thermostat.manualLightToggle t).2 = [Ev.light] ∧
     (Thermostat.manualLightToggle t).1.holdActive = t.holdActive ∧
     (Thermostat.manualLightToggle t).1.state = t.state) ∧
    ((Thermostat.manualTimerToggle t).2 = [Ev.timer] ∧
     (Thermostat.manualTimerToggle t).1.holdActive = t.holdActive ∧
     (Thermostat.manualTimerToggle t).1.state = t.state) := by
  refine ⟨⟨rfl, rfl, rfl, rfl, rfl⟩, ⟨rfl, rfl, rfl, rfl, rfl⟩,
          ⟨rfl, rfl, rfl, rfl, rfl⟩, ⟨rfl, rfl, rfl, rfl, rfl⟩, ?_, ?_,
          ⟨rfl, rfl, rfl⟩, ⟨rfl, rfl, rfl⟩⟩
  · unfold Thermostat.manualHeatUp IRController.sendHeatUp
    split_ifs <;> exact ⟨rfl, rfl, rfl⟩
  · unfold Thermostat.manualHeatDown IRController.sendHeatDown
    split_ifs <;> exact ⟨rfl, rfl, rfl⟩

/-- C2 counterexample: from boot, manual power-on at t = 1000, then the
runtime-limit check at t = 1000 + maxRuntime: the resulting reachable
state has the heater still believed on while heatingStartTime is 0,
so heaterBelievedOn ↔ heatingStartTime ≠ 0 is not an invariant — the
forced heat-off deliberately leaves the fireplace (lights) on. -/
theorem believed_on_invariant_fails :
    ((Thermostat.checkRuntimeLimit cfgD 14401000 tManualOn).1.fireplaceOn = true) ∧
    ((Thermostat.checkRuntimeLimit cfgD 14401000 tManualOn).1.heatingStartTime = 0) := by
  constructor <;> decide

/-- C2 amended: the heater-flipping paths keep the following
bookkeeping — manualOn and turnFireplaceOn record heatingStartTime =
now and believed-on; manualOff records believed-off with
heatingStartTime 0; but turnFireplaceOff flips believed-off while
leaving heatingStartTime unchanged, and checkRuntimeLimit zeroes
heatingStartTime while leaving the heater believed on, so the
biconditional heaterBelievedOn ↔ heatingStartTime ≠ 0 holds only for
the manual paths, not for every heater-flipping path. -/
theorem heater_flip_bookkeeping (cfg : Config) (now : Nat) (t : Thermostat) :
    ((Thermostat.manualOn cfg now t).1.fireplaceOn = true ∧
     (Thermostat.manualOn cfg now t).1.heatingStartTime = now) ∧
    ((Thermostat.manualOff cfg now t).1.fireplaceOn = false ∧
     (Thermostat.manualOff cfg now t).1.heatingStartTime = 0) ∧
    (t.fireplaceOn = false →
      (Thermostat.turnFireplaceOn now t).1.fireplaceOn = true ∧
      (Thermostat.turnFireplaceOn now t).1.heatingStartTime = now) ∧
    (t.fireplaceOn = true →
      (Thermostat.turnFireplaceOff now t).1.fireplaceOn = false ∧
      (Thermostat.turnFireplaceOff now t).1.heatingStartTime = t.heatingStartTime) ∧
    (t.fireplaceOn = true → t.heatingStartTime ≠ 0 →
      now - t.heatingStartTime ≥ cfg.MAX_RUNTIME_MS →
      (Thermostat.checkRuntimeLimit cfg now t).1.fireplaceOn = true ∧
      (Thermostat.checkRuntimeLimit cfg now t).1.heatingStartTime = 0) := by
  refine ⟨⟨rfl, rfl⟩, ⟨rfl, rfl⟩, ?_, ?_, ?_⟩
  · intro h
    unfold Thermostat.turnFireplaceOn
    rw [if_neg (by simp [h])]
    exact ⟨rfl, rfl⟩
  · intro h
    unfold Thermostat.turnFireplaceOff
    rw [if_pos (by simp [h])]
    exact ⟨rfl, rfl⟩
  · intro h1 h2 h3
    unfold Thermostat.checkRuntimeLimit
    rw [if_neg (by simp [h1, h2]), if_pos h3]
    exact ⟨by simp [h1], rfl⟩

/-- Witness for the amended bookkeeping statement on the reachable
manual-on state. -/
theorem heater_flip_bookkeeping_witness :
    (Thermostat.turnFireplaceOff 2000 tManualOn).1.fireplaceOn = false ∧
    (Thermostat.turnFireplaceOff 2000 tManualOn).1.heatingStartTime =
      tManualOn.heatingStartTime := by
  exact (heater_flip_bookkeeping cfgD 2000 tManualOn).2.2.2.1 (by decide)

/-- C3 counterexample: reachable state (boot, manual power-on at
t = 1000, so hold is active, fireplace believed on, mode still Off);
one minimum cycle later evaluateState issues a power-off command even
though holdActive is true — the mode-Off branch runs before the hold
and cooldown guards. -/
theorem evaluateState_commands_during_hold :
    tManualOn.holdActive = true ∧
    tManualOn.mode = ThermostatMode.OFF ∧
    (Thermostat.evaluateState 61000 tManualOn).2 = [Ev.powerOff] := by
  refine ⟨?_, ?_, ?_⟩ <;> decide

/-- C3 amended: while inCooldown or holdActive, evaluateState issues
no heater command provided the mode is Heat (the cooldown and hold
guards short-circuit all control); the mode-Off branch of
evaluateState and setMode(Off) are exceptions that still issue the
heater-off command during Hold or Cooldown. -/
theorem no_commands_during_hold_or_cooldown (now : Nat) (t : Thermostat)
    (h : t.inCooldown = true ∨ t.holdActive = true)
    (hm : t.mode = ThermostatMode.HEAT) :
    (Thermostat.evaluateState now t).2 = [] ∧
    (Thermostat.evaluateState now t).1.state =
      (if t.inCooldown then ThermostatState.COOLDOWN else ThermostatState.HOLD) := by
  unfold Thermostat.evaluateState
  rw [if_neg (by simp [hm])]
  by_cases hc : t.inCooldown
  · rw [if_pos hc, if_pos hc]
    exact ⟨rfl, rfl⟩
  · have hh : t.holdActive = true := by
      rcases h with h | h
      · exact absurd h (by simp [hc])
      · exact h
    rw [if_neg (by simp [hc]), if_pos (by simp [hh]), if_neg (by simp [hc])]
    exact ⟨rfl, rfl⟩

/-- Witness: the hold-active heat-mode state takes no action. -/
theorem no_commands_during_hold_or_cooldown_witness :
    (Thermostat.evaluateState 61000
      (Thermostat.setMode 2000 ThermostatMode.HEAT tManualOn).1).2 = [] := by
  exact (no_commands_during_hold_or_cooldown 61000
    (Thermostat.setMode 2000 ThermostatMode.HEAT tManualOn).1
    (Or.inr (by decide)) (by decide)).1

/-- The hold-expiry check touches only holdActive. -/
lemma holdExpiryCheck_shape (now : Nat) (t : Thermostat) :
    ∃ b, Thermostat.holdExpiryCheck now t = { t with holdActive := b } := by
  unfold Thermostat.holdExpiryCheck
  split_ifs
  · exact ⟨false, rfl⟩
  · exact ⟨t.holdActive, rfl⟩

/-- The cooldown-expiry check touches only inCooldown and
cooldownStartTime. -/
lemma checkCooldownComplete_shape (cfg : Config) (now : Nat) (t : Thermostat) :
    ∃ b c, Thermostat.checkCooldownComplete cfg now t =
      { t with inCooldown := b, cooldownStartTime := c } := by
  unfold Thermostat.checkCooldownComplete
  split_ifs
  all_goals first
    | exact ⟨false, 0, rfl⟩
    | exact ⟨t.inCooldown, t.cooldownStartTime, rfl⟩

/-- The settings-save step touches only settingsPendingSave. -/
lemma settingsSaveCheck_shape (cfg : Config) (now : Nat) (t : Thermostat) :
    ∃ b, Thermostat.settingsSaveCheck cfg now t = { t with settingsPendingSave := b } := by
  unfold Thermostat.settingsSaveCheck
  split_ifs
  · exact ⟨false, rfl⟩
  · exact ⟨t.settingsPendingSave, rfl⟩

/-- The runtime-limit check either does nothing or performs exactly
the forced heat-off transition into cooldown. -/
lemma checkRuntimeLimit_cases (cfg : Config) (now : Nat) (t : Thermostat) :
    Thermostat.checkRuntimeLimit cfg now t = (t, []) ∨
    Thermostat.checkRuntimeLimit cfg now t =
      ({ t with inCooldown := true, cooldownStartTime := now, heatingStartTime := 0 },
       [Ev.heatOff]) := by
  unfold Thermostat.checkRuntimeLimit
  split_ifs
  · exact Or.inl rfl
  · exact Or.inr rfl
  · exact Or.inl rfl

/-- The detector never touches the mode, the control state, the
cooldown bookkeeping, the settings, the sensor bookkeeping or the
minimum-cycle bookkeeping. -/
lemma detect_preserves (cfg : Config) (now : Nat) (t : Thermostat) :
    (Thermostat.detectExternalRemote cfg now t).1.mode = t.mode ∧
    (Thermostat.detectExternalRemote cfg now t).1.inCooldown = t.inCooldown ∧
    (Thermostat.detectExternalRemote cfg now t).1.cooldownStartTime = t.cooldownStartTime ∧
    (Thermostat.detectExternalRemote cfg now t).1.state = t.state ∧
    (Thermostat.detectExternalRemote cfg now t).1.lastStateChange = t.lastStateChange ∧
    (Thermostat.detectExternalRemote cfg now t).1.targetTemp = t.targetTemp ∧
    (Thermostat.detectExternalRemote cfg now t).1.hysteresis = t.hysteresis ∧
    (Thermostat.detectExternalRemote cfg now t).1.minCycleTime = t.minCycleTime ∧
    (Thermostat.detectExternalRemote cfg now t).1.sensorStaleTimeout = t.sensorStaleTimeout ∧
    (Thermostat.detectExternalRemote cfg now t).1.lastSensorUpdate = t.lastSensorUpdate ∧
    (Thermostat.detectExternalRemote cfg now t).1.currentTemp = t.currentTemp ∧
    (Thermostat.detectExternalRemote cfg now t).1.ir = t.ir := by
  unfold Thermostat.detectExternalRemote Thermostat.enterHold
  dsimp only
  repeat' split
  all_goals simp

/-- The detector emits either nothing or a single hold activation. -/
lemma detect_trace_cases (cfg : Config) (now : Nat) (t : Thermostat) :
    (Thermostat.detectExternalRemote cfg now t).2 = [] ∨
    (Thermostat.detectExternalRemote cfg now t).2 = [Ev.holdOn] := by
  unfold Thermostat.detectExternalRemote Thermostat.enterHold
  dsimp only
  repeat' split
  all_goals first | exact Or.inl rfl | exact Or.inr rfl

/-- With the heater believed on, the detector leaves heatingStartTime
alone or zeroes it (the external-power-on inference needs believed
off). -/
lemma detect_on_heatingStart (cfg : Config) (now : Nat) (t : Thermostat)
    (hOn : t.fireplaceOn = true) :
    (Thermostat.detectExternalRemote cfg now t).1.heatingStartTime = t.heatingStartTime ∨
    (Thermostat.detectExternalRemote cfg now t).1.heatingStartTime = 0 := by
  unfold Thermostat.detectExternalRemote Thermostat.enterHold
  dsimp only
  repeat' split
  all_goals simp_all

/-- The heat-on sequence: power on, heat on, some temperature steps,
then four light toggles. -/
lemma turnOn_trace (now : Nat) (t : Thermostat) (h : t.fireplaceOn = false) :
    ∃ mids, (Thermostat.turnFireplaceOn now t).2 =
        Ev.powerOn :: Ev.heatOn :: (mids ++ [Ev.light, Ev.light, Ev.light, Ev.light]) ∧
      ∀ e ∈ mids, e = Ev.tempUp ∨ e = Ev.tempDown := by
  unfold Thermostat.turnFireplaceOn
  rw [if_neg (by simp [h])]
  refine ⟨_, rfl, ?_⟩
  intro e he
  exact sendTempGo_mem _ _ _ e he

/-- The power-off path emits nothing or exactly one power-off. -/
lemma turnOff_trace_cases (now : Nat) (t : Thermostat) :
    (Thermostat.turnFireplaceOff now t).2 = [] ∨
    (Thermostat.turnFireplaceOff now t).2 = [Ev.powerOff] := by
  unfold Thermostat.turnFireplaceOff
  split_ifs
  · exact Or.inr rfl
  · exact Or.inl rfl

/-- Every evaluateState trace is empty, a single power-off, or the
heat-on sequence (issued only from believed-off). -/
lemma eval_trace_cases (now : Nat) (t : Thermostat) :
    (Thermostat.evaluateState now t).2 = [] ∨
    (Thermostat.evaluateState now t).2 = [Ev.powerOff] ∨
    ((Thermostat.evaluateState now t).2 = (Thermostat.turnFireplaceOn now t).2 ∧
      t.fireplaceOn = false) := by
  unfold Thermostat.evaluateState
  dsimp only
  repeat' split
  all_goals first
    | exact Or.inl rfl
    | (rcases turnOff_trace_cases now t with h | h <;>
        first | exact Or.inl h | exact Or.inr (Or.inl h))
    | exact Or.inr (Or.inr ⟨rfl, by simp_all⟩)

/-- evaluateState never issues the heat-off command (its off path is a
power-off; heat-off comes only from the safety supervisor or manual
control). -/
lemma eval_no_heatOff (now : Nat) (t : Thermostat) :
    Ev.heatOff ∉ (Thermostat.evaluateState now t).2 := by
  rcases eval_trace_cases now t with h | h | ⟨h, hoff⟩ <;> rw [h]
  · exact List.not_mem_nil _
  · simp
  · obtain ⟨mids, hm, hmem⟩ := turnOn_trace now t hoff
    rw [hm]
    simp only [List.mem_cons, List.mem_append, List.mem_singleton]
    rintro (h | h | h | h)
    · exact absurd h (by simp)
    · exact absurd h (by simp)
    · rcases hmem _ h with h' | h' <;> simp at h'
    · simp at h

/-- evaluateState never touches mode, cooldown bookkeeping, the hold
fields, the settings, or the sensor bookkeeping. -/
lemma eval_preserves (now : Nat) (t : Thermostat) :
    (Thermostat.evaluateState now t).1.mode = t.mode ∧
    (Thermostat.evaluateState now t).1.inCooldown = t.inCooldown ∧
    (Thermostat.evaluateState now t).1.cooldownStartTime = t.cooldownStartTime ∧
    (Thermostat.evaluateState now t).1.holdActive = t.holdActive ∧
    (Thermostat.evaluateState now t).1.holdStartTime = t.holdStartTime ∧
    (Thermostat.evaluateState now t).1.holdDuration = t.holdDuration ∧
    (Thermostat.evaluateState now t).1.settingsPendingSave = t.settingsPendingSave ∧
    (Thermostat.evaluateState now t).1.lastSettingsChange = t.lastSettingsChange := by
  unfold Thermostat.evaluateState Thermostat.turnFireplaceOn Thermostat.turnFireplaceOff
  dsimp only
  repeat' split
  all_goals simp

/-- With mode Off, evaluateState always lands in Idle. -/
lemma eval_off_idle (now : Nat) (t : Thermostat)
    (hm : t.mode = ThermostatMode.OFF) :
    (Thermostat.evaluateState now t).1.state = ThermostatState.IDLE := by
  unfold Thermostat.evaluateState
  rw [if_pos hm]
  dsimp only
  split <;> rfl

/-- During cooldown, evaluateState leaves heatingStartTime alone (the
only path that writes it, turnFireplaceOn, is unreachable). -/
lemma eval_cooldown_heatingStart (now : Nat) (t : Thermostat)
    (hc : t.inCooldown = true) :
    (Thermostat.evaluateState now t).1.heatingStartTime = t.heatingStartTime := by
  unfold Thermostat.evaluateState Thermostat.turnFireplaceOff
  dsimp only
  repeat' split
  all_goals simp_all

/-- Fields untouched by the hold-expiry check. -/
lemma holdExpiryCheck_fields (now : Nat) (t : Thermostat) :
    (Thermostat.holdExpiryCheck now t).fireplaceOn = t.fireplaceOn ∧
    (Thermostat.holdExpiryCheck now t).heatingStartTime = t.heatingStartTime ∧
    (Thermostat.holdExpiryCheck now t).mode = t.mode ∧
    (Thermostat.holdExpiryCheck now t).inCooldown = t.inCooldown ∧
    (Thermostat.holdExpiryCheck now t).cooldownStartTime = t.cooldownStartTime := by
  unfold Thermostat.holdExpiryCheck
  split <;> simp

/-- Fields untouched by the cooldown-expiry check. -/
lemma checkCooldownComplete_fields (cfg : Config) (now : Nat) (t : Thermostat) :
    (Thermostat.checkCooldownComplete cfg now t).fireplaceOn = t.fireplaceOn ∧
    (Thermostat.checkCooldownComplete cfg now t).heatingStartTime = t.heatingStartTime ∧
    (Thermostat.checkCooldownComplete cfg now t).mode = t.mode ∧
    (Thermostat.checkCooldownComplete cfg now t).holdActive = t.holdActive := by
  unfold Thermostat.checkCooldownComplete
  repeat' split
  all_goals simp

/-- Fields untouched by the settings-save step. -/
lemma settingsSaveCheck_fields (cfg : Config) (now : Nat) (t : Thermostat) :
    (Thermostat.settingsSaveCheck cfg now t).inCooldown = t.inCooldown ∧
    (Thermostat.settingsSaveCheck cfg now t).cooldownStartTime = t.cooldownStartTime ∧
    (Thermostat.settingsSaveCheck cfg now t).heatingStartTime = t.heatingStartTime ∧
    (Thermostat.settingsSaveCheck cfg now t).state = t.state ∧
    (Thermostat.settingsSaveCheck cfg now t).holdActive = t.holdActive ∧
    (Thermostat.settingsSaveCheck cfg now t).fireplaceOn = t.fireplaceOn := by
  unfold Thermostat.settingsSaveCheck
  split <;> simp

/-- When the heater is believed on with a nonzero heating start and
the runtime has reached the limit, the runtime check performs exactly
the forced transition. -/
lemma checkRuntimeLimit_fires (cfg : Config) (now : Nat) (t : Thermostat)
    (hOn : t.fireplaceOn = true) (hTs : t.heatingStartTime ≠ 0)
    (hRt : now - t.heatingStartTime ≥ cfg.MAX_RUNTIME_MS) :
    Thermostat.checkRuntimeLimit cfg now t =
      ({ t with inCooldown := true, cooldownStartTime := now, heatingStartTime := 0 },
       [Ev.heatOff]) := by
  unfold Thermostat.checkRuntimeLimit
  rw [if_neg (by simp [hOn, hTs]), if_pos hRt]

/-- With no heating start recorded, the runtime check is a no-op. -/
lemma checkRuntimeLimit_noop (cfg : Config) (now : Nat) (t : Thermostat)
    (h : t.heatingStartTime = 0) :
    Thermostat.checkRuntimeLimit cfg now t = (t, []) := by
  unfold Thermostat.checkRuntimeLimit
  rw [if_pos (Or.inr h)]

/-- C1: once the heater is believed on with heatingStartTime set, when
now - heatingStartTime reaches the maximum runtime, the runtime check
inside the tick issues exactly one forced heat-off straight to the IR
sender — for every value of lastStateChange and minCycleTime, i.e. not
gated by the minimum-cycle-time throttle — sets inCooldown, records
cooldownStartTime = now and zeroes heatingStartTime; the whole tick
emits exactly one heat-off, and any later tick from a state with
heatingStartTime = 0 emits none, so the forced heat-off cannot repeat
while the condition persists. -/
theorem runtime_limit_forced_heat_off_once (cfg : Config) (now now2 : Nat)
    (t : Thermostat) (hOn : t.fireplaceOn = true) (hTs : t.heatingStartTime ≠ 0)
    (hRt : now - t.heatingStartTime ≥ cfg.MAX_RUNTIME_MS) :
    Thermostat.checkRuntimeLimit cfg now t =
      ({ t with inCooldown := true, cooldownStartTime := now, heatingStartTime := 0 },
       [Ev.heatOff]) ∧
    (Thermostat.update cfg now t).2.count Ev.heatOff = 1 ∧
    (Thermostat.update cfg now t).1.inCooldown = true ∧
    (Thermostat.update cfg now t).1.cooldownStartTime = now ∧
    (Thermostat.update cfg now t).1.heatingStartTime = 0 ∧
    (∀ u : Thermostat, u.heatingStartTime = 0 →
      Ev.heatOff ∉ (Thermostat.update cfg now2 u).2) := by
  have hfe := holdExpiryCheck_fields now t
  have hcc := checkCooldownComplete_fields cfg now (Thermostat.holdExpiryCheck now t)
  have h2on : (Thermostat.checkCooldownComplete cfg now
      (Thermostat.holdExpiryCheck now t)).fireplaceOn = true := by
    rw [hcc.1, hfe.1, hOn]
  have h2ts : (Thermostat.checkCooldownComplete cfg now
      (Thermostat.holdExpiryCheck now t)).heatingStartTime ≠ 0 := by
    rw [hcc.2.1, hfe.2.1]
    exact hTs
  have h2rt : now - (Thermostat.checkCooldownComplete cfg now
      (Thermostat.holdExpiryCheck now t)).heatingStartTime ≥ cfg.MAX_RUNTIME_MS := by
    rw [hcc.2.1, hfe.2.1]
    exact hRt
  have hfire := checkRuntimeLimit_fires cfg now _ h2on h2ts h2rt
  refine ⟨checkRuntimeLimit_fires cfg now t hOn hTs hRt, ?_, ?_, ?_, ?_, ?_⟩
  · unfold Thermostat.update
    dsimp only
    rw [hfire]
    dsimp only
    rw [List.count_append, List.count_append]
    have hd := detect_trace_cases cfg now
      ({ Thermostat.checkCooldownComplete cfg now (Thermostat.holdExpiryCheck now t) with
         inCooldown := true, cooldownStartTime := now, heatingStartTime := 0 })
    have he := eval_no_heatOff now
      (Thermostat.detectExternalRemote cfg now
        ({ Thermostat.checkCooldownComplete cfg now (Thermostat.holdExpiryCheck now t) with
           inCooldown := true, cooldownStartTime := now, heatingStartTime := 0 })).1
    rw [List.count_eq_zero.mpr he]
    rcases hd with hd | hd <;> rw [hd] <;> simp
  · unfold Thermostat.update
    dsimp only
    rw [hfire]
    dsimp only
    rw [(settingsSaveCheck_fields _ _ _).1, (eval_preserves _ _).2.1,
        (detect_preserves _ _ _).2.1]
  · unfold Thermostat.update
    dsimp only
    rw [hfire]
    dsimp only
    rw [(settingsSaveCheck_fields _ _ _).2.1, (eval_preserves _ _).2.2.1,
        (detect_preserves _ _ _).2.2.1]
  · unfold Thermostat.update
    dsimp only
    rw [hfire]
    dsimp only
    rw [(settingsSaveCheck_fields _ _ _).2.2.1]
    have hdc : (Thermostat.detectExternalRemote cfg now
        ({ Thermostat.checkCooldownComplete cfg now (Thermostat.holdExpiryCheck now t) with
           inCooldown := true, cooldownStartTime := now, heatingStartTime := 0 })).1.inCooldown = true := by
      rw [(detect_preserves _ _ _).2.1]
    rw [eval_cooldown_heatingStart _ _ hdc]
    rcases detect_on_heatingStart cfg now
      ({ Thermostat.checkCooldownComplete cfg now (Thermostat.holdExpiryCheck now t) with
         inCooldown := true, cooldownStartTime := now, heatingStartTime := 0 }) (by rw [h2on]) with h | h
    · rw [h]
    · rw [h]
  · intro u hu
    unfold Thermostat.update
    dsimp only
    have hu2 : (Thermostat.checkCooldownComplete cfg now2
        (Thermostat.holdExpiryCheck now2 u)).heatingStartTime = 0 := by
      rw [(checkCooldownComplete_fields _ _ _).2.1,
          (holdExpiryCheck_fields _ _).2.1, hu]
    rw [checkRuntimeLimit_noop cfg now2 _ hu2]
    dsimp only
    intro hmem
    rw [List.mem_append] at hmem
    rcases hmem with hmem | hmem
    · simp at hmem
    · rw [List.mem_append] at hmem
      rcases hmem with hmem | hmem
      · rcases detect_trace_cases cfg now2
          (Thermostat.checkCooldownComplete cfg now2 (Thermostat.holdExpiryCheck now2 u)) with hd | hd <;>
          rw [hd] at hmem <;> simp at hmem
      · exact eval_no_heatOff now2 _ hmem

/-- Witness: from the reachable manual-on state, at exactly the
maximum runtime the tick emits one heat-off and enters cooldown. -/
theorem runtime_limit_forced_heat_off_once_witness :
    (Thermostat.update cfgD 14401000 tManualOn).2.count Ev.heatOff = 1 ∧
    (Thermostat.update cfgD 14401000 tManualOn).1.inCooldown = true ∧
    (Thermostat.update cfgD 14401000 tManualOn).1.heatingStartTime = 0 := by
  have h := runtime_limit_forced_heat_off_once cfgD 14401000 99 tManualOn
    (by decide) (by decide) (by decide)
  exact ⟨h.2.1, h.2.2.1, h.2.2.2.2.1⟩

/-- C6 counterexample: hold activated while mode is already Off (boot
state has mode Off; manual power-on at t = 1000 activates hold); the
tick at t = 61000 forces Idle and issues the power-off, but does NOT
clear the hold — holdActive stays true, contrary to the claim that the
tick clears Hold whenever mode is Off. -/
theorem mode_off_tick_keeps_hold :
    tManualOn.mode = ThermostatMode.OFF ∧
    tManualOn.holdActive = true ∧
    (Thermostat.update cfgD 61000 tManualOn).1.holdActive = true ∧
    (Thermostat.update cfgD 61000 tManualOn).1.state = ThermostatState.IDLE := by
  refine ⟨?_, ?_, ?_, ?_⟩ <;> decide

/-- C6 amended: when mode is Off the tick forces state = Idle for
every prior state, with the heater-off command issued once
min-cycle-time allows (or no command at all if the heater is already
believed off); Hold is cleared by the setMode transition into Off, but
a Hold activated while mode is already Off is not cleared by the tick
(it persists until expiry or an explicit exit). -/
theorem mode_off_forces_idle (cfg : Config) (now : Nat) (t : Thermostat)
    (hm : t.mode = ThermostatMode.OFF) :
    (Thermostat.update cfg now t).1.state = ThermostatState.IDLE ∧
    (t.fireplaceOn = false → (Thermostat.evaluateState now t).2 = []) ∧
    (t.fireplaceOn = true → t.canChangeState now = true →
      (Thermostat.evaluateState now t).2 = [Ev.powerOff] ∧
      (Thermostat.evaluateState now t).1.fireplaceOn = false) ∧
    (∀ u : Thermostat, u.mode = ThermostatMode.HEAT →
      (Thermostat.setMode now ThermostatMode.OFF u).1.holdActive = false ∧
      (Thermostat.setMode now ThermostatMode.OFF u).1.state = ThermostatState.IDLE) := by
  refine ⟨?_, ?_, ?_, ?_⟩
  · unfold Thermostat.update
    dsimp only
    have m1 : (Thermostat.holdExpiryCheck now t).mode = ThermostatMode.OFF := by
      rw [(holdExpiryCheck_fields _ _).2.2.1, hm]
    have m2 : (Thermostat.checkCooldownComplete cfg now
        (Thermostat.holdExpiryCheck now t)).mode = ThermostatMode.OFF := by
      rw [(checkCooldownComplete_fields _ _ _).2.2.1, m1]
    have m3 : (Thermostat.checkRuntimeLimit cfg now
        (Thermostat.checkCooldownComplete cfg now
          (Thermostat.holdExpiryCheck now t))).1.mode = ThermostatMode.OFF := by
      rcases checkRuntimeLimit_cases cfg now (Thermostat.checkCooldownComplete cfg now
        (Thermostat.holdExpiryCheck now t)) with h | h <;> rw [h] <;> exact m2
    have m4 : (Thermostat.detectExternalRemote cfg now
        (Thermostat.checkRuntimeLimit cfg now
          (Thermostat.checkCooldownComplete cfg now
            (Thermostat.holdExpiryCheck now t))).1).1.mode = ThermostatMode.OFF := by
      rw [(detect_preserves _ _ _).1, m3]
    rw [(settingsSaveCheck_fields _ _ _).2.2.2.1, eval_off_idle _ _ m4]
  · intro h
    unfold Thermostat.evaluateState
    rw [if_pos hm, if_neg (by simp [h])]
  · intro h1 h2
    unfold Thermostat.evaluateState Thermostat.turnFireplaceOff
    rw [if_pos hm, if_pos ⟨by simp [h1], by simp [h2]⟩, if_pos (by simp [h1])]
    exact ⟨rfl, rfl⟩
  · intro u hu
    unfold Thermostat.setMode
    rw [if_neg (by simp [hu])]
    dsimp only
    rw [if_pos rfl]
    exact ⟨rfl, rfl⟩

/-- Witness: from a heating-mode state, switching mode to Off clears
hold and forces Idle; a believed-off Off-mode tick issues nothing. -/
theorem mode_off_forces_idle_witness :
    (Thermostat.update cfgD 500 (Thermostat.init cfgD)).1.state = ThermostatState.IDLE ∧
    (Thermostat.evaluateState 500 (Thermostat.init cfgD)).2 = [] := by
  have h := mode_off_forces_idle cfgD 500 (Thermostat.init cfgD) (by decide)
  exact ⟨h.1, h.2.1 (by decide)⟩

/-- C4: for any target in [60, 84] and hysteresis in [0.5, 5] (the
setter-guaranteed ranges): believed off, reading below target minus
hysteresis, cycle time elapsed, mode Heat, sensor valid, no hold, no
cooldown — evaluateState runs exactly the heat-on sequence (power on,
heat on, temperature steps, four light toggles) and the state becomes
Heating with believed-on and heatingStartTime = now recorded. -/
theorem heat_on_when_below_band (now : Nat) (t : Thermostat)
    (htl : 60 ≤ t.targetTemp) (hth : t.targetTemp ≤ 84)
    (hhl : 1/2 ≤ t.hysteresis) (hhh : t.hysteresis ≤ 5)
    (hoff : t.fireplaceOn = false)
    (hcold : t.currentTemp < t.targetTemp - t.hysteresis)
    (hcycle : t.canChangeState now = true)
    (hmode : t.mode = ThermostatMode.HEAT)
    (hsensor : t.isSensorDataValid now = true)
    (hhold : t.holdActive = false) (hcool : t.inCooldown = false) :
    Thermostat.evaluateState now t = Thermostat.turnFireplaceOn now t ∧
    (Thermostat.evaluateState now t).1.state = ThermostatState.HEATING ∧
    (Thermostat.evaluateState now t).1.fireplaceOn = true ∧
    (Thermostat.evaluateState now t).1.heatingStartTime = now ∧
    (Thermostat.evaluateState now t).1.lastStateChange = now ∧
    ∃ mids, (Thermostat.evaluateState now t).2 =
        Ev.powerOn :: Ev.heatOn :: (mids ++ [Ev.light, Ev.light, Ev.light, Ev.light]) ∧
      ∀ e ∈ mids, e = Ev.tempUp ∨ e = Ev.tempDown := by
  have heq : Thermostat.evaluateState now t = Thermostat.turnFireplaceOn now t := by
    unfold Thermostat.evaluateState
    rw [if_neg (by simp [hmode]), if_neg (by simp [hcool]), if_neg (by simp [hhold]),
        if_neg (by simp [hsensor])]
    dsimp only
    rw [if_pos (by simp [hoff]), if_pos hcold, if_pos (by simp [hcycle])]
  have hrec : (Thermostat.turnFireplaceOn now t).1.state = ThermostatState.HEATING ∧
      (Thermostat.turnFireplaceOn now t).1.fireplaceOn = true ∧
      (Thermostat.turnFireplaceOn now t).1.heatingStartTime = now ∧
      (Thermostat.turnFireplaceOn now t).1.lastStateChange = now := by
    unfold Thermostat.turnFireplaceOn
    rw [if_neg (by simp [hoff])]
    exact ⟨rfl, rfl, rfl, rfl⟩
  rw [heq]
  exact ⟨rfl, hrec.1, hrec.2.1, hrec.2.2.1, hrec.2.2.2, turnOn_trace now t hoff⟩

/-- Witness: the spec scenario — target 70, hysteresis 2, reading 67,
mode Heat, valid sensor, idle timers — issues the heat-on sequence and
lands in Heating. -/
theorem heat_on_when_below_band_witness :
    (Thermostat.evaluateState 400000 tOnW).1.state = ThermostatState.HEATING ∧
    (Thermostat.evaluateState 400000 tOnW).1.fireplaceOn = true ∧
    ∃ mids, (Thermostat.evaluateState 400000 tOnW).2 =
        Ev.powerOn :: Ev.heatOn :: (mids ++ [Ev.light, Ev.light, Ev.light, Ev.light]) ∧
      ∀ e ∈ mids, e = Ev.tempUp ∨ e = Ev.tempDown := by
  have h := heat_on_when_below_band 400000 tOnW
    (by norm_num [tOnW, Thermostat.init, cfgD]) (by norm_num [tOnW, Thermostat.init, cfgD])
    (by norm_num [tOnW, Thermostat.init, cfgD]) (by norm_num [tOnW, Thermostat.init, cfgD])
    (by decide) (by norm_num [tOnW, Thermostat.init, cfgD]) (by decide) (by decide)
    (by decide) (by decide) (by decide)
  exact ⟨h.2.1, h.2.2.1, h.2.2.2.2.2⟩

/-- int8_t increment agrees with +1 away from the wrap point. -/
lemma i8inc_eq (n : Int) (h : n ≠ 127) : i8inc n = n + 1 := by
  unfold i8inc
  rw [if_neg h]

/-- Detector step on a processed rising sample that completes the
required consecutive count while the heater is believed off: the
external power-on inference fires — believed-on, heatingStartTime =
now, counter reset, hold entered (default duration) with exactly one
hold activation event. -/
lemma detect_rising_fire (cfg : Config) (now : Nat) (t : Thermostat)
    (hv : t.isSensorDataValid now = true)
    (hgap : cfg.TREND_SAMPLE_INTERVAL ≤ now - t.lastTrendSample)
    (hprev : t.previousTemp ≠ 0)
    (hdelta : cfg.TREND_RISING_THRESHOLD < t.currentTemp - t.previousTemp)
    (hoff : t.fireplaceOn = false)
    (hreq : cfg.TREND_SAMPLES_REQUIRED ≤
      (if t.trendDirection = 1 then i8inc t.consecutiveTrend else 1)) :
    Thermostat.detectExternalRemote cfg now t =
      ({ t with lastTrendSample := now, previousTemp := t.currentTemp,
                trendDirection := 1, consecutiveTrend := 0,
                fireplaceOn := true, heatingStartTime := now,
                holdActive := true, holdStartTime := now,
                holdDuration := cfg.HOLD_DURATION_MS }, [Ev.holdOn]) := by
  have hdir : trendClassify cfg (t.currentTemp - t.previousTemp) = 1 := by
    unfold trendClassify
    rw [if_pos hdelta]
  unfold Thermostat.detectExternalRemote Thermostat.enterHold
  rw [if_neg (by simp [hv]), if_neg (by omega)]
  dsimp only
  rw [if_neg hprev]
  try dsimp only
  rw [hdir]
  by_cases hd : t.trendDirection = 1
  · have hreq1 : cfg.TREND_SAMPLES_REQUIRED ≤ i8inc t.consecutiveTrend := by
      rw [if_pos hd] at hreq
      exact hreq
    simp [hd, hreq1, hoff]
  · have hd2 : ((1 : Int) = t.trendDirection) = False := by
      simp only [eq_iff_iff, iff_false]
      intro h
      exact hd h.symm
    have hreq1 : cfg.TREND_SAMPLES_REQUIRED ≤ 1 := by
      rw [if_neg hd] at hreq
      exact hreq
    simp [hd2, hreq1, hoff]

/-- Detector step on a processed rising sample that does not fire —
either the consecutive count is still short of the requirement, or the
heater is already believed on: only the trend bookkeeping advances and
no event is emitted. -/
lemma detect_rising_nofire (cfg : Config) (now : Nat) (t : Thermostat)
    (hv : t.isSensorDataValid now = true)
    (hgap : cfg.TREND_SAMPLE_INTERVAL ≤ now - t.lastTrendSample)
    (hprev : t.previousTemp ≠ 0)
    (hdelta : cfg.TREND_RISING_THRESHOLD < t.currentTemp - t.previousTemp)
    (hblock : (if t.trendDirection = 1 then i8inc t.consecutiveTrend else 1) <
        cfg.TREND_SAMPLES_REQUIRED ∨ t.fireplaceOn = true) :
    Thermostat.detectExternalRemote cfg now t =
      ({ t with lastTrendSample := now, previousTemp := t.currentTemp,
                trendDirection := 1,
                consecutiveTrend :=
                  if t.trendDirection = 1 then i8inc t.consecutiveTrend else 1 }, []) := by
  have hdir : trendClassify cfg (t.currentTemp - t.previousTemp) = 1 := by
    unfold trendClassify
    rw [if_pos hdelta]
  unfold Thermostat.detectExternalRemote Thermostat.enterHold
  rw [if_neg (by simp [hv]), if_neg (by omega)]
  dsimp only
  rw [if_neg hprev]
  try dsimp only
  rw [hdir]
  by_cases hd : t.trendDirection = 1
  · rcases hblock with hb | hb
    · have hb1 : ¬ cfg.TREND_SAMPLES_REQUIRED ≤ i8inc t.consecutiveTrend := by
        rw [if_pos hd] at hb
        omega
      simp [hd, hb1]
    · simp [hd, hb]
  · have hd2 : ((1 : Int) = t.trendDirection) = False := by
      simp only [eq_iff_iff, iff_false]
      intro h
      exact hd h.symm
    rcases hblock with hb | hb
    · have hb1 : ¬ cfg.TREND_SAMPLES_REQUIRED ≤ (1 : Int) := by
        rw [if_neg hd] at hb
        omega
      simp [hd, hd2, hb1]
    · simp [hd, hd2, hb]

/-- A freshly delivered sensor reading at a nonzero instant is valid
whenever the staleness timeout is positive. -/
lemma updateSensorData_valid (now : Nat) (temp hum : ℚ) (t : Thermostat)
    (h1 : now ≠ 0) (h2 : 1 ≤ t.sensorStaleTimeout) :
    (Thermostat.updateSensorData now temp hum t).isSensorDataValid now = true := by
  unfold Thermostat.updateSensorData Thermostat.isSensorDataValid
  simp only
  rw [if_neg (by simpa using h1)]
  simp only [decide_eq_true_eq]
  omega

/-- Feeding rising samples while the heater is believed on never
fires the detector again: believed-on, the hold fields and
heatingStartTime are all untouched and no event is emitted, however
long the rising trend continues. -/
lemma feedTrace_rising_on (cfg : Config) (hint : 1 ≤ cfg.TREND_SAMPLE_INTERVAL) :
    ∀ samples : List (Nat × ℚ), ∀ t : Thermostat,
      t.fireplaceOn = true → t.previousTemp ≠ 0 → 1 ≤ t.sensorStaleTimeout →
      RisingChain cfg t.lastTrendSample t.previousTemp samples →
      (Thermostat.feedTrace cfg samples t).1.fireplaceOn = true ∧
      (Thermostat.feedTrace cfg samples t).1.holdActive = t.holdActive ∧
      (Thermostat.feedTrace cfg samples t).1.holdStartTime = t.holdStartTime ∧
      (Thermostat.feedTrace cfg samples t).1.heatingStartTime = t.heatingStartTime ∧
      (Thermostat.feedTrace cfg samples t).2 = [] := by
  intro samples
  induction samples with
  | nil =>
    intro t hOn hprev hstale _
    exact ⟨hOn, rfl, rfl, rfl, rfl⟩
  | cons p rest ih =>
    intro t hOn hprev hstale hchain
    obtain ⟨hgap0, hdelta0, hτ, hrest⟩ := hchain
    have htm : p.1 ≠ 0 := by omega
    have hstep := detect_rising_nofire cfg p.1 (Thermostat.updateSensorData p.1 p.2 50 t)
      (updateSensorData_valid p.1 p.2 50 t htm hstale)
      (by simp [Thermostat.updateSensorData]; omega)
      (by simpa [Thermostat.updateSensorData] using hprev)
      (by simp [Thermostat.updateSensorData]; linarith)
      (Or.inr (by simpa [Thermostat.updateSensorData] using hOn))
    have hih := ih ({ Thermostat.updateSensorData p.1 p.2 50 t with
        lastTrendSample := p.1,
        previousTemp := (Thermostat.updateSensorData p.1 p.2 50 t).currentTemp,
        trendDirection := 1,
        consecutiveTrend :=
          if (Thermostat.updateSensorData p.1 p.2 50 t).trendDirection = 1 then
            i8inc (Thermostat.updateSensorData p.1 p.2 50 t).consecutiveTrend
          else 1 })
      (by simpa [Thermostat.updateSensorData] using hOn)
      (by simpa [Thermostat.updateSensorData] using hτ)
      (by simpa [Thermostat.updateSensorData] using hstale)
      (by simpa [Thermostat.updateSensorData] using hrest)
    simp only [Thermostat.feedTrace, Thermostat.feedSample, hstep]
    simp only [Thermostat.updateSensorData] at hih ⊢
    refine ⟨hih.1, ?_, ?_, ?_, ?_⟩
    · rw [hih.2.1]
    · rw [hih.2.2.1]
    · rw [hih.2.2.2.1]
    · rw [hih.2.2.2.2]
      simp

/-- Feeding enough rising samples from a believed-off state fires the
external power-on inference exactly once: believed-on flips to true,
hold is activated with holdStartTime equal to the recorded
heatingStartTime (the firing instant), and across the whole sequence
exactly one hold activation is emitted, however far the rising trend
continues past the firing point. -/
lemma feedTrace_rising_fires (cfg : Config)
    (hint : 1 ≤ cfg.TREND_SAMPLE_INTERVAL)
    (hreqhi : cfg.TREND_SAMPLES_REQUIRED ≤ 127) :
    ∀ samples : List (Nat × ℚ), ∀ t : Thermostat,
      t.fireplaceOn = false → t.previousTemp ≠ 0 → 1 ≤ t.sensorStaleTimeout →
      0 ≤ t.consecutiveTrend → t.consecutiveTrend ≤ 126 →
      RisingChain cfg t.lastTrendSample t.previousTemp samples →
      (if t.trendDirection = 1 then (cfg.TREND_SAMPLES_REQUIRED - t.consecutiveTrend).toNat
        else cfg.TREND_SAMPLES_REQUIRED.toNat) ≤ samples.length →
      1 ≤ samples.length →
      (Thermostat.feedTrace cfg samples t).1.fireplaceOn = true ∧
      (Thermostat.feedTrace cfg samples t).1.holdActive = true ∧
      (Thermostat.feedTrace cfg samples t).1.heatingStartTime =
        (Thermostat.feedTrace cfg samples t).1.holdStartTime ∧
      (Thermostat.feedTrace cfg samples t).1.heatingStartTime ≠ 0 ∧
      (Thermostat.feedTrace cfg samples t).2.count Ev.holdOn = 1 := by
  intro samples
  induction samples with
  | nil =>
    intro t _ _ _ _ _ _ _ hlen1
    simp at hlen1
  | cons p rest ih =>
    intro t hOff hprev hstale hc0 hc126 hchain hbudget hlen1
    obtain ⟨hgap0, hdelta0, hτ, hrest⟩ := hchain
    have htm : p.1 ≠ 0 := by omega
    have hv := updateSensorData_valid p.1 p.2 50 t htm hstale
    have hgap : cfg.TREND_SAMPLE_INTERVAL ≤
        p.1 - (Thermostat.updateSensorData p.1 p.2 50 t).lastTrendSample := by
      simp [Thermostat.updateSensorData]
      omega
    have hprev1 : (Thermostat.updateSensorData p.1 p.2 50 t).previousTemp ≠ 0 := by
      simpa [Thermostat.updateSensorData] using hprev
    have hdelta : cfg.TREND_RISING_THRESHOLD <
        (Thermostat.updateSensorData p.1 p.2 50 t).currentTemp -
        (Thermostat.updateSensorData p.1 p.2 50 t).previousTemp := by
      simp [Thermostat.updateSensorData]
      linarith
    by_cases hfire : cfg.TREND_SAMPLES_REQUIRED ≤
        (if t.trendDirection = 1 then i8inc t.consecutiveTrend else 1)
    · have hstep := detect_rising_fire cfg p.1 (Thermostat.updateSensorData p.1 p.2 50 t)
        hv hgap hprev1 hdelta (by simpa [Thermostat.updateSensorData] using hOff)
        (by simpa [Thermostat.updateSensorData] using hfire)
      have hon := feedTrace_rising_on cfg hint rest
        ({ Thermostat.updateSensorData p.1 p.2 50 t with
            lastTrendSample := p.1,
            previousTemp := (Thermostat.updateSensorData p.1 p.2 50 t).currentTemp,
            trendDirection := 1, consecutiveTrend := 0,
            fireplaceOn := true, heatingStartTime := p.1,
            holdActive := true, holdStartTime := p.1,
            holdDuration := cfg.HOLD_DURATION_MS })
        rfl
        (by simpa [Thermostat.updateSensorData] using hτ)
        (by simpa [Thermostat.updateSensorData] using hstale)
        (by simpa [Thermostat.updateSensorData] using hrest)
      simp only [Thermostat.feedTrace, Thermostat.feedSample, hstep]
      refine ⟨hon.1, ?_, ?_, ?_, ?_⟩
      · rw [hon.2.1]
      · rw [hon.2.2.2.1, hon.2.2.1]
      · rw [hon.2.2.2.1]
        simpa using htm
      · rw [hon.2.2.2.2]
        simp
    · have hstep := detect_rising_nofire cfg p.1 (Thermostat.updateSensorData p.1 p.2 50 t)
        hv hgap hprev1 hdelta
        (Or.inl (by simp [Thermostat.updateSensorData]; omega))
      have hc1 : i8inc t.consecutiveTrend = t.consecutiveTrend + 1 :=
        i8inc_eq t.consecutiveTrend (by omega)
      have hih := ih ({ Thermostat.updateSensorData p.1 p.2 50 t with
          lastTrendSample := p.1,
          previousTemp := (Thermostat.updateSensorData p.1 p.2 50 t).currentTemp,
          trendDirection := 1,
          consecutiveTrend :=
            if (Thermostat.updateSensorData p.1 p.2 50 t).trendDirection = 1 then
              i8inc (Thermostat.updateSensorData p.1 p.2 50 t).consecutiveTrend
            else 1 })
        (by simpa [Thermostat.updateSensorData] using hOff)
        (by simpa [Thermostat.updateSensorData] using hτ)
        (by simpa [Thermostat.updateSensorData] using hstale)
        (by simp [Thermostat.updateSensorData]
            split_ifs <;> omega)
        (by simp [Thermostat.updateSensorData]
            split_ifs <;> omega)
        (by simpa [Thermostat.updateSensorData] using hrest)
        (by simp only [Thermostat.updateSensorData]
            by_cases hd : t.trendDirection = 1 <;>
              simp only [hd, if_pos, if_neg, if_true] <;>
              simp_all <;> omega)
        (by by_cases hd : t.trendDirection = 1 <;> simp_all <;> omega)
      simp only [Thermostat.feedTrace, Thermostat.feedSample, hstep]
      simp only [Thermostat.updateSensorData] at hih ⊢
      refine ⟨hih.1, hih.2.1, hih.2.2.1, hih.2.2.2.1, ?_⟩
      rw [List.nil_append]
      exact hih.2.2.2.2

/-- C5: (sequence level) feeding valid sensor samples at the trend
sampling interval whose deltas all exceed the rising threshold, from a
believed-off state with an established baseline, for at least the
required consecutive count, flips believed-on to true and activates
Hold exactly once — exactly one hold activation in the whole event
trace, holdStartTime equal to the recorded heatingStartTime, and no
re-activation while the rising trend continues; (step level) the
firing sample itself sets believed-on, heatingStartTime = now, resets
the consecutive counter to 0 and enters hold at now. -/
theorem detector_rising_flips_once (cfg : Config) (t : Thermostat)
    (samples : List (Nat × ℚ))
    (hint : 1 ≤ cfg.TREND_SAMPLE_INTERVAL)
    (hreqhi : cfg.TREND_SAMPLES_REQUIRED ≤ 127)
    (hoff : t.fireplaceOn = false) (hprev : t.previousTemp ≠ 0)
    (hstale : 1 ≤ t.sensorStaleTimeout)
    (hc0 : 0 ≤ t.consecutiveTrend) (hc126 : t.consecutiveTrend ≤ 126)
    (hchain : RisingChain cfg t.lastTrendSample t.previousTemp samples)
    (hbudget : (if t.trendDirection = 1 then
        (cfg.TREND_SAMPLES_REQUIRED - t.consecutiveTrend).toNat
      else cfg.TREND_SAMPLES_REQUIRED.toNat) ≤ samples.length)
    (hlen : 1 ≤ samples.length) :
    ((Thermostat.feedTrace cfg samples t).1.fireplaceOn = true ∧
     (Thermostat.feedTrace cfg samples t).1.holdActive = true ∧
     (Thermostat.feedTrace cfg samples t).1.heatingStartTime =
       (Thermostat.feedTrace cfg samples t).1.holdStartTime ∧
     (Thermostat.feedTrace cfg samples t).1.heatingStartTime ≠ 0 ∧
     (Thermostat.feedTrace cfg samples t).2.count Ev.holdOn = 1) ∧
    (∀ now : Nat, ∀ u : Thermostat, u.isSensorDataValid now = true →
      cfg.TREND_SAMPLE_INTERVAL ≤ now - u.lastTrendSample →
      u.previousTemp ≠ 0 →
      cfg.TREND_RISING_THRESHOLD < u.currentTemp - u.previousTemp →
      u.fireplaceOn = false →
      cfg.TREND_SAMPLES_REQUIRED ≤
        (if u.trendDirection = 1 then i8inc u.consecutiveTrend else 1) →
      Thermostat.detectExternalRemote cfg now u =
        ({ u with lastTrendSample := now, previousTemp := u.currentTemp,
                  trendDirection := 1, consecutiveTrend := 0,
                  fireplaceOn := true, heatingStartTime := now,
                  holdActive := true, holdStartTime := now,
                  holdDuration := cfg.HOLD_DURATION_MS }, [Ev.holdOn])) := by
  constructor
  · exact feedTrace_rising_fires cfg hint hreqhi samples t hoff hprev hstale hc0 hc126
      hchain hbudget hlen
  · intro now u h1 h2 h3 h4 h5 h6
    exact detect_rising_fire cfg now u h1 h2 h3 h4 h5 h6

/-- Witness: three rising samples at the sampling interval from the
established-baseline state flip believed-on and emit one hold
activation. -/
theorem detector_rising_flips_once_witness :
    (Thermostat.feedTrace cfgD samplesW tDetW).1.fireplaceOn = true ∧
    (Thermostat.feedTrace cfgD samplesW tDetW).1.holdActive = true ∧
    (Thermostat.feedTrace cfgD samplesW tDetW).2.count Ev.holdOn = 1 := by
  have h := detector_rising_flips_once cfgD tDetW samplesW
    (by decide) (by decide) (by decide) (by decide) (by decide) (by decide) (by decide)
    (by norm_num [RisingChain, samplesW, tDetW, cfgD, Thermostat.init])
    (by decide) (by decide)
  exact ⟨h.1.1, h.1.2.1, h.1.2.2.2.2⟩
